import Mathlib

/-!
Verification of the browser-automation tool server (`server.py`) against its
specification.  The Python handlers are shallowly embedded as pure Lean
functions: external collaborators (the OS probes, the automation library, the
page and its frames) become explicit environment records, side effects become
event traces, and raised exceptions become `Except` errors.
-/

/-! ## String helpers modelling Python string primitives -/

/-- Lowers an ASCII letter, models `str.lower` on one character
(non-ASCII characters are untouched, which covers every string the
detection code compares against). -/
def asciiLowerChar (c : Char) : Char :=
  if 65 ≤ c.toNat && c.toNat ≤ 90 then Char.ofNat (c.toNat + 32) else c

/-- Raises an ASCII letter, used by `pyTitle`. -/
def asciiUpperChar (c : Char) : Char :=
  if 97 ≤ c.toNat && c.toNat ≤ 122 then Char.ofNat (c.toNat - 32) else c

/-- Models Python `str.lower` (ASCII range). -/
def pyLower (s : String) : String := ⟨s.data.map asciiLowerChar⟩

/-- Models Python `str.strip` (drop surrounding whitespace). -/
def pyStrip (s : String) : String :=
  ⟨((s.data.dropWhile Char.isWhitespace).reverse.dropWhile Char.isWhitespace).reverse⟩

/-- `hasPrefixL pat l` is true when `pat` is a prefix of `l`. -/
def hasPrefixL : List Char → List Char → Bool
  | [], _ => true
  | _ :: _, [] => false
  | p :: ps, c :: cs => p == c && hasPrefixL ps cs

/-- `hasSubL pat l` is true when `pat` occurs contiguously inside `l`. -/
def hasSubL (pat : List Char) : List Char → Bool
  | [] => hasPrefixL pat []
  | c :: cs => hasPrefixL pat (c :: cs) || hasSubL pat cs

/-- Models the Python substring test `pat in s`. -/
def pyIn (pat s : String) : Bool := hasSubL pat.data s.data

/-- Models Python `str.title` on one character list: the first letter of
every alphabetic run is upper-cased, the rest lower-cased. -/
def pyTitleGo : Bool → List Char → List Char
  | _, [] => []
  | prevAlpha, c :: cs =>
    let c2 := if c.isAlpha then (if prevAlpha then asciiLowerChar c else asciiUpperChar c) else c
    c2 :: pyTitleGo c.isAlpha cs

/-- Models Python `str.title`. -/
def pyTitle (s : String) : String := ⟨pyTitleGo false s.data⟩

/-! ## Browser discovery (`detect_default_browser`, server.py lines 30-118)

The host OS is an external collaborator: the embedding takes a `DetectEnv`
describing the identity reported by `platform.system()` and the outcome of
each OS-specific probe.  A probe that raises is an `Except.error`. -/

/-- Outcome of a `subprocess.run(..., capture_output=True, text=True)` call. -/
structure ProcResult where
  returncode : Int
  stdout : String
  deriving DecidableEq

/-- Outcome of the Windows registry query: importing `winreg` may fail,
the registry lookup may raise, or it yields the `ProgId` string. -/
inductive WinregOutcome where
  | importError
  | queryError
  | ok (progId : String)
  deriving DecidableEq

/-- The host-OS state read by `detect_default_browser`. -/
structure DetectEnv where
  /-- Value returned by `platform.system()`. -/
  system : String
  /-- The macOS `defaults read ... LSHandlers` probe; `error` means the call raised. -/
  darwinDefaults : Except Unit ProcResult
  /-- The Windows registry probe for the HTTP `UserChoice` ProgId. -/
  winreg : WinregOutcome
  /-- Value of `os.path.expanduser("~")` on Windows. -/
  winHome : String
  /-- Models `os.path.exists`. -/
  pathExists : String → Bool
  /-- The Linux `xdg-settings get default-web-browser` probe. -/
  linuxXdg : Except Unit ProcResult

def braveMacPath : String := "/Applications/Brave Browser.app/Contents/MacOS/Brave Browser"
def chromeMacPath : String := "/Applications/Google Chrome.app/Contents/MacOS/Google Chrome"
def edgeMacPath : String := "/Applications/Microsoft Edge.app/Contents/MacOS/Microsoft Edge"

/-- The candidate Brave install paths probed on Windows
(`os.path.expanduser` replaces the leading `~` with the home directory). -/
def braveWinPaths (home : String) : List String :=
  [home ++ "/AppData/Local/BraveSoftware/Brave-Browser/Application/brave.exe",
   "C:\\Program Files\\BraveSoftware\\Brave-Browser\\Application\\brave.exe",
   "C:\\Program Files (x86)\\BraveSoftware\\Brave-Browser\\Application\\brave.exe"]

def chromeWinPath : String := "C:\\Program Files\\Google\\Chrome\\Application\\chrome.exe"
def chromeWinAltPath : String := "C:\\Program Files (x86)\\Google\\Chrome\\Application\\chrome.exe"
def edgeWinPath : String := "C:\\Program Files (x86)\\Microsoft\\Edge\\Application\\msedge.exe"
def braveLinuxPath : String := "/usr/bin/brave-browser"
def chromeLinuxPath : String := "/usr/bin/google-chrome"
def chromiumLinuxPath : String := "/usr/bin/chromium-browser"

/-- The `for path in brave_paths: if os.path.exists(path): return path` loop. -/
def findFirstExisting (pathExists : String → Bool) : List String → Option String
  | [] => none
  | p :: ps => if pathExists p then some p else findFirstExisting pathExists ps

/-- The body of `detect_default_browser` inside the outer `try`:
`Except.error` models an exception escaping to the outer handler,
`Except.ok none` models falling through to the final fallback line, and
`Except.ok (some r)` models an early `return r`. -/
def detectBody (env : DetectEnv) : Except Unit (Option (String × Option String)) :=
  let system := pyLower env.system
  if system = "darwin" then
    match env.darwinDefaults with
    | .error _ => .error ()
    | .ok r =>
      if r.returncode = 0 then
        let output := r.stdout
        if pyIn "com.brave.browser" (pyLower output) then
          .ok (some ("brave", some braveMacPath))
        else if pyIn "com.google.chrome" (pyLower output) then
          .ok (some ("chrome", some chromeMacPath))
        else if pyIn "com.microsoft.edgemac" (pyLower output) then
          .ok (some ("chrome", some edgeMacPath))
        else .ok none
      else .ok none
  else if system = "windows" then
    match env.winreg with
    | .importError => .ok none
    | .queryError => .ok none
    | .ok prog_id =>
      if pyIn "brave" (pyLower prog_id) then
        let brave_paths := braveWinPaths env.winHome
        match findFirstExisting env.pathExists brave_paths with
        | some p => .ok (some ("brave", some p))
        | none => .ok (some ("brave", some (brave_paths.headD "")))
      else if pyIn "chrome" (pyLower prog_id) then
        if env.pathExists chromeWinPath then .ok (some ("chrome", some chromeWinPath))
        else .ok (some ("chrome",
          some (if env.pathExists chromeWinAltPath then chromeWinAltPath else chromeWinPath)))
      else if pyIn "edge" (pyLower prog_id) then
        .ok (some ("chrome", some edgeWinPath))
      else .ok none
  else if system = "linux" then
    match env.linuxXdg with
    | .error _ => .ok none
    | .ok r =>
      if r.returncode = 0 then
        let default_browser := pyLower (pyStrip r.stdout)
        if pyIn "brave" default_browser then
          .ok (some ("brave", some braveLinuxPath))
        else if pyIn "chrome" default_browser || pyIn "google-chrome" default_browser then
          .ok (some ("chrome", some chromeLinuxPath))
        else if pyIn "chromium" default_browser then
          .ok (some ("chrome", some chromiumLinuxPath))
        else .ok none
      else .ok none
  else .ok none

/-- `detect_default_browser`: the body wrapped in the outer exception handler;
an escaping exception or a fall-through both reach the `("chrome", None)`
fallback line. -/
def detect_default_browser (env : DetectEnv) : String × Option String :=
  match detectBody env with
  | .ok (some r) => r
  | .ok none => ("chrome", none)
  | .error _ => ("chrome", none)

/-- The spec-side condition "the OS-specific probe fails or is inconclusive,
or the OS is unrecognized": the probe raised, reported a non-zero status, or
its answer matched none of the recognized browser identities. -/
def probeFailedOrInconclusive (env : DetectEnv) : Bool :=
  let system := pyLower env.system
  if system = "darwin" then
    match env.darwinDefaults with
    | .error _ => true
    | .ok r =>
      !(r.returncode == 0 &&
        (pyIn "com.brave.browser" (pyLower r.stdout) ||
         pyIn "com.google.chrome" (pyLower r.stdout) ||
         pyIn "com.microsoft.edgemac" (pyLower r.stdout)))
  else if system = "windows" then
    match env.winreg with
    | .importError => true
    | .queryError => true
    | .ok prog_id =>
      !(pyIn "brave" (pyLower prog_id) || pyIn "chrome" (pyLower prog_id) ||
        pyIn "edge" (pyLower prog_id))
  else if system = "linux" then
    match env.linuxXdg with
    | .error _ => true
    | .ok r =>
      !(r.returncode == 0 &&
        (pyIn "brave" (pyLower (pyStrip r.stdout)) ||
         pyIn "chrome" (pyLower (pyStrip r.stdout)) ||
         pyIn "google-chrome" (pyLower (pyStrip r.stdout)) ||
         pyIn "chromium" (pyLower (pyStrip r.stdout))))
  else true

/-- Modelled from the spec: the primary browser kind is the kind used by the
fallback, and the Chromium-based alternative brand is the other recognized
kind. -/
def primaryKind : String := "chrome"

/-- Modelled from the spec: the Chromium-based alternative brand among the two
recognized kinds. -/
def alternativeKind : String := "brave"

/-! ## Session lifecycle (`initialize_browser` / `close_browser`,
server.py lines 120-242)

The module globals `browser` and `browser_context` are handles to external
resources.  `World` tracks the two globals plus, for leak accounting, the set
of externally constructed but not yet successfully closed connections and
contexts; fresh handles are numbered by a counter.  Each external call is
recorded as an event at the moment it is invoked. -/

/-- Observable external calls made by the session-lifecycle handlers. -/
inductive Ev where
  /-- `await browser_context.close()` was invoked on the given handle. -/
  | contextCloseCall (id : Nat)
  /-- `await browser.close()` was invoked on the given handle. -/
  | browserCloseCall (id : Nat)
  /-- `Browser(config=config)` constructed a new connection handle; the
  argument records the `chrome_instance_path` of the config. -/
  | browserNew (id : Nat) (chrome_instance_path : String)
  /-- `BrowserContext(browser=browser)` constructed a new context handle. -/
  | contextNew (id : Nat)
  deriving DecidableEq

/-- The process-wide mutable state of the session manager. -/
structure World where
  /-- The module global `browser`. -/
  browser : Option Nat
  /-- The module global `browser_context`. -/
  browser_context : Option Nat
  /-- Connections constructed and not yet successfully closed (live). -/
  liveConnections : List Nat
  /-- Contexts constructed and not yet successfully closed (live). -/
  liveContexts : List Nat
  /-- Next fresh handle number. -/
  nextId : Nat
  deriving DecidableEq

/-- The state before any tool call: both globals `None`, nothing live. -/
def World.init : World :=
  { browser := none, browser_context := none,
    liveConnections := [], liveContexts := [], nextId := 0 }

/-- Failure injection for `close_browser`: whether each external `close()`
call raises. -/
structure CloseEnv where
  contextCloseRaises : Bool
  browserCloseRaises : Bool
  deriving DecidableEq

/-- The second half of `close_browser`: `if browser: await browser.close();
browser = None`.  A raise propagates immediately (`Except.error`), leaving
the global set. -/
def closeBrowserPart (env : CloseEnv) (w : World) (tr : List Ev) :
    World × List Ev × Except Unit String :=
  match w.browser with
  | some b =>
    if env.browserCloseRaises then
      (w, tr ++ [Ev.browserCloseCall b], .error ())
    else
      ({ w with browser := none, liveConnections := w.liveConnections.erase b },
       tr ++ [Ev.browserCloseCall b], .ok "Browser closed successfully")
  | none => (w, tr, .ok "Browser closed successfully")

/-- `close_browser` (server.py lines 226-242): releases the context first,
then the connection, each under a plain `if <present>` check; there is no
`try`, so a raise in either `close()` propagates at once, skipping
everything after it. -/
def close_browser (env : CloseEnv) (w : World) :
    World × List Ev × Except Unit String :=
  match w.browser_context with
  | some c =>
    if env.contextCloseRaises then
      (w, [Ev.contextCloseCall c], .error ())
    else
      closeBrowserPart env
        { w with browser_context := none, liveContexts := w.liveContexts.erase c }
        [Ev.contextCloseCall c]
  | none => closeBrowserPart env w []

/-- Errors `initialize_browser` can surface. -/
inductive InitError where
  /-- The teardown of the previous session raised, and the exception
  propagated out of `initialize_browser`. -/
  | closeError
  /-- `Exception("Unsupported operating system: ...")`. -/
  | unsupportedOS (system : String)
  deriving DecidableEq

/-- Environment of `initialize_browser`: the host OS state consulted by
detection and path resolution, the failure injection for the embedded
teardown, and the text produced by the external `SystemPrompt` collaborator. -/
structure InitEnv where
  detect : DetectEnv
  close : CloseEnv
  systemPromptText : String

/-- The `browser_system_prompt` f-string assembled at the end of
`initialize_browser` (whitespace reproduced from the source). -/
def initPrompt (systemPromptText task browser_type : String) : String :=
  let browser_mode :=
    "Connected to user\x27s " ++ pyTitle browser_type ++ " browser with existing sessions"
  "\n        " ++ systemPromptText ++
  "\n        Your ultimate task is: " ++ task ++
  ".\n        If you achieved your ultimate task, stop everything and use the done tool to complete the task." ++
  "\n        If not, continue as usual.\n        \n        Browser mode: " ++ browser_mode ++
  "\n        Note: Connected to your default browser with all existing login sessions and data.\n    "

/-- The tail of `initialize_browser` once a concrete executable path is
known: `browser = Browser(config)`, `browser_context = BrowserContext(browser)`,
then the prompt is returned. -/
def buildSession (env : InitEnv) (task : String) (w : World) (tr : List Ev)
    (chrome_path : String) (browser_type : String) :
    World × List Ev × Except InitError String :=
  let b := w.nextId
  let c := w.nextId + 1
  ({ w with browser := some b, browser_context := some c,
            liveConnections := b :: w.liveConnections,
            liveContexts := c :: w.liveContexts,
            nextId := w.nextId + 2 },
   tr ++ [Ev.browserNew b chrome_path, Ev.contextNew c],
   .ok (initPrompt env.systemPromptText task browser_type))

/-- `initialize_browser` after the initial teardown: auto-detection, path
resolution from the static OS table when detection yielded no path, and
session construction.  Raises on an unsupported OS. -/
def initRest (env : InitEnv) (task : String) (w : World) (tr : List Ev) :
    World × List Ev × Except InitError String :=
  let detected := detect_default_browser env.detect
  let browser_type := detected.1
  let chrome_path : Option String :=
    match detected.2 with
    | some p => if p = "" then none else some p
    | none => none
  match chrome_path with
  | some p => buildSession env task w tr p browser_type
  | none =>
    let system := pyLower env.detect.system
    if pyLower browser_type = "brave" then
      if system = "darwin" then buildSession env task w tr braveMacPath browser_type
      else if system = "windows" then
        let brave_paths := braveWinPaths env.detect.winHome
        let p := match findFirstExisting env.detect.pathExists brave_paths with
          | some p => p
          | none => brave_paths.headD ""
        buildSession env task w tr p browser_type
      else if system = "linux" then buildSession env task w tr braveLinuxPath browser_type
      else (w, tr, .error (.unsupportedOS system))
    else
      if system = "darwin" then buildSession env task w tr chromeMacPath browser_type
      else if system = "windows" then buildSession env task w tr chromeWinPath browser_type
      else if system = "linux" then buildSession env task w tr chromeLinuxPath browser_type
      else (w, tr, .error (.unsupportedOS system))

/-- `initialize_browser` (server.py lines 127-223): if the global `browser`
is set, `close_browser` runs first; a raise there propagates out.  Then the
session is rebuilt per `initRest`. -/
def initialize_browser (env : InitEnv) (task : String) (w : World) :
    World × List Ev × Except InitError String :=
  match w.browser with
  | some _ =>
    let closed := close_browser env.close w
    match closed.2.2 with
    | .error _ => (closed.1, closed.2.1, .error .closeError)
    | .ok _ => initRest env task closed.1 closed.2.1
  | none => initRest env task w []

/-- Two successive `initialize_browser` calls from the initial state. -/
def initTwice (env1 env2 : InitEnv) (task1 task2 : String) :
    World × List Ev × Except InitError String :=
  initialize_browser env2 task2 (initialize_browser env1 task1 World.init).1

/-! ## Element-addressed tools

The external automation capability supplies the interactive-element map: a
dictionary from integer index to a resolved DOM element handle.  It is
modelled as an association list; Python dict membership and `dict[key]`
lookup both go through `lookupIndex`. -/

/-- The slice of a resolved DOM element handle the handlers read. -/
structure DomElement where
  /-- The element location path usable across frames. -/
  xpath : String
  /-- `tag_name` of the element. -/
  tag_name : String
  /-- `get_all_text_till_next_clickable_element(max_depth=2)`. -/
  allText : String
  deriving DecidableEq

/-- Lookup in the interactive-element map (`selector_map[index]`, and the
membership test `index in selector_map`). -/
def lookupIndex (m : List (Int × DomElement)) (i : Int) : Option DomElement :=
  match m with
  | [] => none
  | (k, v) :: rest => if k = i then some v else lookupIndex rest i

/-- Python exceptions the handlers raise: a raw `KeyError` from a dict
lookup, or an `Exception` with a descriptive message. -/
inductive PyErr where
  | keyError (k : Int)
  | exn (msg : String)
  deriving DecidableEq

/-! ### `click_element` (server.py lines 300-356) -/

/-- Observable steps taken by `click_element`. -/
inductive ClickEv where
  /-- `browser_context.is_file_uploader(element_node)` was consulted. -/
  | uploaderCheck
  /-- `browser_context._click_element_node(element_node)` was invoked. -/
  | clickAttempt
  /-- `asyncio.sleep(1)`, the fixed delay before the retry. -/
  | sleepRetry
  /-- `browser_context.switch_to_tab(-1)` after a new tab appeared. -/
  | switchToLatestTab
  deriving DecidableEq

/-- The external state `click_element` interacts with: the element map, the
file-uploader answer, the page count before/after a click, and the outcome of
each `_click_element_node` call (`Except.error msg` is a raise with `str(e) =
msg`; `Except.ok` carries the optional download path). -/
structure ClickEnv where
  selector_map : List (Int × DomElement)
  is_file_uploader : Bool
  initialPages : Nat
  pagesAfter : Nat
  click1 : Except String (Option String)
  click2 : Except String (Option String)

/-- The confirmation message of a successful click. -/
def clickSuccessMsg (index : Int) (element_node : DomElement)
    (download_path : Option String) : String :=
  match download_path with
  | some p => "💾 Downloaded file to " ++ p
  | none =>
    "🖱️ Clicked button with index " ++ toString index ++ ": " ++ element_node.allText

/-- The message plus the new-tab handling after a successful click. -/
def clickOutcome (env : ClickEnv) (index : Int) (element_node : DomElement)
    (download_path : Option String) (tr : List ClickEv) :
    List ClickEv × Except PyErr String :=
  let msg := clickSuccessMsg index element_node download_path
  if env.pagesAfter > env.initialPages then
    (tr ++ [ClickEv.switchToLatestTab], .ok (msg ++ " - New tab opened - switching to it"))
  else (tr, .ok msg)

/-- `click_element`: membership check, file-uploader guard, first click,
and on a "not found" / "failed to click" class of error one retry after a
fixed delay; a second failure is raised, any other error class is returned
as a descriptive string. -/
def click_element (env : ClickEnv) (index : Int) : List ClickEv × Except PyErr String :=
  match lookupIndex env.selector_map index with
  | none =>
    ([], .error (.exn ("Element with index " ++ toString index ++
      " does not exist - retry or use alternative actions")))
  | some element_node =>
    if env.is_file_uploader then
      ([ClickEv.uploaderCheck],
       .ok ("Index " ++ toString index ++
         " - has an element which opens file upload dialog. Use a dedicated function for file uploads"))
    else
      match env.click1 with
      | .ok download_path =>
        clickOutcome env index element_node download_path
          [ClickEv.uploaderCheck, ClickEv.clickAttempt]
      | .error e =>
        if pyIn "Element not found" e || pyIn "Failed to click element" e then
          match env.click2 with
          | .ok download_path =>
            clickOutcome env index element_node download_path
              [ClickEv.uploaderCheck, ClickEv.clickAttempt, ClickEv.sleepRetry,
               ClickEv.clickAttempt]
          | .error _ =>
            ([ClickEv.uploaderCheck, ClickEv.clickAttempt, ClickEv.sleepRetry,
              ClickEv.clickAttempt],
             .error (.exn ("Failed to click element with index " ++ toString index ++
               " even after waiting: " ++ e)))
        else
          ([ClickEv.uploaderCheck, ClickEv.clickAttempt],
           .ok ("Error clicking element with index " ++ toString index ++ ": " ++ e ++
             ". Call inspect_page() and try finding the element again."))

/-! ### `input_text` (server.py lines 360-381) -/

/-- `input_text`: membership check (raising a descriptive error when the
index is absent), the external write, then the narration string, which
carries the literal text only when the data is not sensitive. -/
def input_text (selector_map : List (Int × DomElement)) (index : Int)
    (text : String) (has_sensitive_data : Bool) : Except PyErr String :=
  match lookupIndex selector_map index with
  | none =>
    .error (.exn ("Element index " ++ toString index ++
      " does not exist - retry or use alternative actions"))
  | some _ =>
    if !has_sensitive_data then
      .ok ("⌨️ Input " ++ text ++ " into index " ++ toString index)
    else
      .ok ("⌨️ Input sensitive data into index " ++ toString index)

/-! ### Dropdown tools (server.py lines 511-611) -/

/-- One option record returned by the in-frame script
(`{text, value, index}`). -/
structure OptionRec where
  text : String
  value : String
  index : Nat
  deriving DecidableEq

/-- Outcome of `frame.evaluate` in `get_dropdown_options` for one frame:
the call may raise, return `null` (no select at the xpath), or return the
select's option records. -/
inductive FrameEval where
  | raises
  | nullResult
  | found (options : List OptionRec)
  deriving DecidableEq

/-- Trace of frame probes. -/
inductive DropEv where
  /-- `frame.evaluate(...)` was invoked on one frame. -/
  | frameEval
  deriving DecidableEq

/-- The external state of `get_dropdown_options`: the page's frames, the
element map, and the stdlib `json.dumps` encoder for option text. -/
structure DropdownEnv where
  frames : List FrameEval
  selector_map : List (Int × DomElement)
  jsonDumps : String → String

/-- The per-frame formatting `f-string` of one option. -/
def formatOptions (dumps : String → String) (opts : List OptionRec) : List String :=
  opts.map (fun o => toString o.index ++ ": text=" ++ dumps o.text)

/-- The frame loop of `get_dropdown_options`: a raising frame is swallowed by
`except Exception: pass`, a `null` result adds nothing, a found select
contributes its formatted options in order. -/
def collectFrames (dumps : String → String) : List FrameEval → List String
  | [] => []
  | .raises :: rest => collectFrames dumps rest
  | .nullResult :: rest => collectFrames dumps rest
  | .found opts :: rest => formatOptions dumps opts ++ collectFrames dumps rest

/-- `get_dropdown_options`: raw `selector_map[index]` lookup (a `KeyError`
when absent), then aggregation over every frame. -/
def get_dropdown_options (env : DropdownEnv) (index : Int) :
    List DropEv × Except PyErr String :=
  match lookupIndex env.selector_map index with
  | none => ([], .error (.keyError index))
  | some _dom_element =>
    let all_options := collectFrames env.jsonDumps env.frames
    let tr := env.frames.map (fun _ => DropEv.frameEval)
    if all_options.isEmpty then
      (tr, .ok "No options found in any frame for dropdown")
    else
      (tr, .ok (String.intercalate "\n" all_options ++
        "\nUse the exact text string in select_dropdown_option"))

/-- Outcome of probing one frame in `select_dropdown_option`: the evaluate
may raise, report no select found, report found with the subsequent
`select_option` succeeding (carrying `str(selected_option_values)`), or
report found with `select_option` raising (also swallowed by the loop). -/
inductive SelFrameEval where
  | raises
  | notFound
  | foundOk (values : String)
  | foundRaises
  deriving DecidableEq

/-- The external state of `select_dropdown_option`. -/
structure SelectEnv where
  frames : List SelFrameEval
  selector_map : List (Int × DomElement)

/-- The frame loop of `select_dropdown_option`: the first frame where the
select is found and the selection succeeds returns; every failure is
swallowed and the loop moves on. -/
def selectLoop (text : String) : List SelFrameEval → List DropEv × Except PyErr String
  | [] => ([], .ok ("Could not select option \x27" ++ text ++ "\x27 in any frame"))
  | .foundOk values :: _ =>
    ([DropEv.frameEval], .ok ("Selected option " ++ text ++ " with value " ++ values))
  | .raises :: rest =>
    let r := selectLoop text rest
    (DropEv.frameEval :: r.1, r.2)
  | .notFound :: rest =>
    let r := selectLoop text rest
    (DropEv.frameEval :: r.1, r.2)
  | .foundRaises :: rest =>
    let r := selectLoop text rest
    (DropEv.frameEval :: r.1, r.2)

/-- `select_dropdown_option`: raw `selector_map[index]` lookup (a `KeyError`
when absent), the tag guard returning a descriptive refusal, then the frame
loop. -/
def select_dropdown_option (env : SelectEnv) (index : Int) (text : String) :
    List DropEv × Except PyErr String :=
  match lookupIndex env.selector_map index with
  | none => ([], .error (.keyError index))
  | some dom_element =>
    if dom_element.tag_name ≠ "select" then
      ([], .ok ("Cannot select option: Element with index " ++ toString index ++
        " is a " ++ dom_element.tag_name ++ ", not a select"))
    else selectLoop text env.frames

/-! ### `search_google` (server.py lines 245-257) -/

/-- Observable page operations. -/
inductive PageEv where
  | goto (url : String)
  | waitForLoadState
  deriving DecidableEq

/-- `search_google`: navigates the current page to the f-string URL built
from the raw query (no URL-encoding is applied anywhere) and returns the
confirmation narration. -/
def search_google (query : String) : List PageEv × String :=
  ([PageEv.goto ("https://www.google.com/search?q=" ++ query ++ "&udm=14"),
    PageEv.waitForLoadState],
   "🔍 Searched for \"" ++ query ++ "\" in Google")

/-! ## Sample data used by witnesses -/

/-- A sample resolved element handle. -/
def sampleInput : DomElement :=
  { xpath := "html/body/input[1]", tag_name := "input", allText := "Submit" }

/-- A sample select element handle. -/
def sampleSelect : DomElement :=
  { xpath := "html/body/select[1]", tag_name := "select", allText := "Colors" }

/-! ## Theorems -/

/-- Claim C10: for every query string, `search_google` navigates the current
page to exactly the concatenation of the fixed search prefix, the query
inserted verbatim (no URL-encoding), and the fixed `udm` suffix, and the
confirmation narration it returns contains the query verbatim. -/
theorem search_google_verbatim_query (query : String) :
    (search_google query).1 =
      [PageEv.goto ("https://www.google.com/search?q=" ++ query ++ "&udm=14"),
       PageEv.waitForLoadState]
    ∧ ∃ pre suf, (search_google query).2 = pre ++ query ++ suf :=
  ⟨rfl, "🔍 Searched for \"", "\" in Google", rfl⟩

/-- Claim C7: the narration `input_text` returns with `has_sensitive_data =
true` is independent of the text argument, and with `has_sensitive_data =
false` it contains the literal text. -/
theorem input_text_sensitive_noninterference
    (selector_map : List (Int × DomElement)) (index : Int) (t1 t2 : String)
    (el : DomElement) (h : lookupIndex selector_map index = some el) :
    input_text selector_map index t1 true = input_text selector_map index t2 true
    ∧ ∃ pre suf, input_text selector_map index t1 false = .ok (pre ++ t1 ++ suf) := by
  constructor
  · simp [input_text]
  · exact ⟨"⌨️ Input ", " into index " ++ toString index, by
      simp [input_text, h, String.append_assoc]⟩

/-- Witness for C7 at a concrete map, index and pair of texts. -/
theorem input_text_sensitive_noninterference_witness :
    input_text [(4, sampleInput)] 4 "hunter2" true
      = input_text [(4, sampleInput)] 4 "swordfish" true
    ∧ ∃ pre suf, input_text [(4, sampleInput)] 4 "hunter2" false
      = .ok (pre ++ "hunter2" ++ suf) :=
  input_text_sensitive_noninterference [(4, sampleInput)] 4 "hunter2" "swordfish"
    sampleInput (by decide)

/-- Claim C5: `click_element` with an index absent from the interactive
element map raises the descriptive not-found error immediately; the empty
trace shows no click, no file-uploader check and no retry was attempted. -/
theorem click_element_absent_index (env : ClickEnv) (index : Int)
    (h : lookupIndex env.selector_map index = none) :
    click_element env index =
      ([], .error (.exn ("Element with index " ++ toString index ++
        " does not exist - retry or use alternative actions"))) := by
  simp [click_element, h]

/-- Witness for C5 at a concrete environment whose map lacks index 7. -/
theorem click_element_absent_index_witness :
    click_element
      { selector_map := [(1, sampleInput)], is_file_uploader := false,
        initialPages := 1, pagesAfter := 1,
        click1 := .ok none, click2 := .ok none } 7 =
      ([], .error (.exn ("Element with index " ++ toString (7 : Int) ++
        " does not exist - retry or use alternative actions"))) :=
  click_element_absent_index
    { selector_map := [(1, sampleInput)], is_file_uploader := false,
      initialPages := 1, pagesAfter := 1,
      click1 := .ok none, click2 := .ok none } 7 (by decide)

/-- Claim C9: with an index absent from the element map, both dropdown tools
fail with the raw map-lookup `KeyError` carrying just the index (not a
descriptive message), and the empty trace shows no frame was probed. -/
theorem dropdown_tools_absent_index_keyerror
    (envD : DropdownEnv) (envS : SelectEnv) (index : Int) (text : String)
    (hD : lookupIndex envD.selector_map index = none)
    (hS : lookupIndex envS.selector_map index = none) :
    get_dropdown_options envD index = ([], .error (.keyError index))
    ∧ select_dropdown_option envS index text = ([], .error (.keyError index)) := by
  constructor
  · simp [get_dropdown_options, hD]
  · simp [select_dropdown_option, hS]

/-- Witness for C9 at concrete environments whose maps lack index 3. -/
theorem dropdown_tools_absent_index_keyerror_witness :
    get_dropdown_options
      { frames := [FrameEval.nullResult], selector_map := [(1, sampleSelect)],
        jsonDumps := fun s => s } 3 = ([], .error (.keyError 3))
    ∧ select_dropdown_option
      { frames := [SelFrameEval.notFound], selector_map := [(1, sampleSelect)] }
      3 "Red" = ([], .error (.keyError 3)) :=
  dropdown_tools_absent_index_keyerror
    { frames := [FrameEval.nullResult], selector_map := [(1, sampleSelect)],
      jsonDumps := fun s => s }
    { frames := [SelFrameEval.notFound], selector_map := [(1, sampleSelect)] }
    3 "Red" (by decide) (by decide)

/-- The frame loop distributes over concatenation of frame lists. -/
theorem collectFrames_append (dumps : String → String) (a b : List FrameEval) :
    collectFrames dumps (a ++ b) = collectFrames dumps a ++ collectFrames dumps b := by
  induction a with
  | nil => rfl
  | cons f rest ih => cases f <;> simp [collectFrames, ih]

/-- Claim C8: with a resolvable index, `get_dropdown_options` always returns
a best-effort string (never an error); deleting a raising frame from the
frame list does not change the result (per-frame failures are swallowed
silently); and in the two-frame scenario where frame A yields options and
frame B raises, the result lists exactly frame A's options. -/
theorem get_dropdown_options_swallows_frame_failures
    (env : DropdownEnv) (index : Int) (el : DomElement)
    (h : lookupIndex env.selector_map index = some el) :
    (∃ s, (get_dropdown_options env index).2 = .ok s)
    ∧ (∀ f1 f2, env.frames = f1 ++ FrameEval.raises :: f2 →
        (get_dropdown_options env index).2 =
          (get_dropdown_options { env with frames := f1 ++ f2 } index).2)
    ∧ (∀ optsA, env.frames = [FrameEval.found optsA, FrameEval.raises] →
        optsA ≠ [] →
        (get_dropdown_options env index).2 =
          .ok (String.intercalate "\n" (formatOptions env.jsonDumps optsA) ++
            "\nUse the exact text string in select_dropdown_option")) := by
  refine ⟨?_, ?_, ?_⟩
  · simp only [get_dropdown_options, h]
    by_cases he : (collectFrames env.jsonDumps env.frames).isEmpty <;> simp [he]
  · intro f1 f2 hf
    have hc : collectFrames env.jsonDumps env.frames =
        collectFrames env.jsonDumps (f1 ++ f2) := by
      rw [hf, collectFrames_append, collectFrames_append, collectFrames]
    simp only [get_dropdown_options, h, hc]
    by_cases he : (collectFrames env.jsonDumps (f1 ++ f2)).isEmpty <;> simp [he]
  · intro optsA hf hne
    have hc : collectFrames env.jsonDumps env.frames = formatOptions env.jsonDumps optsA := by
      rw [hf]; simp [collectFrames]
    simp only [get_dropdown_options, h, hc]
    cases optsA with
    | nil => exact absurd rfl hne
    | cons o rest => simp [formatOptions]

/-- A concrete dropdown environment: frame A yields two options, frame B
raises. -/
def dropdownEnvAB : DropdownEnv :=
  { frames := [FrameEval.found
      [{ text := "Red", value := "r", index := 0 },
       { text := "Blue", value := "b", index := 1 }],
     FrameEval.raises],
    selector_map := [(5, sampleSelect)],
    jsonDumps := fun s => "\"" ++ s ++ "\"" }

/-- Witness for C8: in the concrete A-yields/B-raises environment the result
is exactly frame A's two formatted options, with no error. -/
theorem get_dropdown_options_swallows_frame_failures_witness :
    (get_dropdown_options dropdownEnvAB 5).2 =
      .ok (String.intercalate "\n"
        (formatOptions dropdownEnvAB.jsonDumps
          [{ text := "Red", value := "r", index := 0 },
           { text := "Blue", value := "b", index := 1 }]) ++
        "\nUse the exact text string in select_dropdown_option") :=
  (get_dropdown_options_swallows_frame_failures dropdownEnvAB 5 sampleSelect
    (by decide)).2.2
    [{ text := "Red", value := "r", index := 0 },
     { text := "Blue", value := "b", index := 1 }] rfl (by decide)

/-- Claim C6: when the first click raises a "not found" / "failed to click"
class of error, exactly one retry runs after the fixed delay; a successful
retry yields the same result the first click would have yielded (the normal
click confirmation); a failed retry raises the fatal error; any other error
class is returned as a descriptive string with no retry. -/
theorem click_element_retry_policy (env : ClickEnv) (index : Int)
    (el : DomElement) (e : String)
    (h : lookupIndex env.selector_map index = some el)
    (hup : env.is_file_uploader = false)
    (he : env.click1 = .error e) :
    ((pyIn "Element not found" e || pyIn "Failed to click element" e) = true →
      (∀ dl, env.click2 = .ok dl →
        (click_element env index).2 =
          (click_element { env with click1 := .ok dl } index).2
        ∧ (∃ m, (click_element env index).2 = .ok m)
        ∧ (click_element env index).1.count ClickEv.clickAttempt = 2
        ∧ (click_element env index).1.count ClickEv.sleepRetry = 1)
      ∧ (∀ e2, env.click2 = .error e2 →
        (click_element env index).2 =
          .error (.exn ("Failed to click element with index " ++ toString index ++
            " even after waiting: " ++ e))
        ∧ (click_element env index).1.count ClickEv.clickAttempt = 2))
    ∧ ((pyIn "Element not found" e || pyIn "Failed to click element" e) = false →
      (click_element env index).2 =
        .ok ("Error clicking element with index " ++ toString index ++ ": " ++ e ++
          ". Call inspect_page() and try finding the element again.")
      ∧ (click_element env index).1.count ClickEv.clickAttempt = 1) := by
  constructor
  · intro hclass
    constructor
    · intro dl h2
      refine ⟨?_, ?_, ?_, ?_⟩ <;>
        simp only [click_element, h, hup, he, h2, hclass, Bool.false_eq_true, if_false,
          if_true, clickOutcome] <;>
        by_cases hp : env.pagesAfter > env.initialPages <;> simp [hp, List.count_cons]
    · intro e2 h2
      constructor <;>
        simp [click_element, h, hup, he, h2, hclass, List.count_cons]
  · intro hclass
    constructor <;>
      simp [click_element, h, hup, he, hclass, List.count_cons]

/-- A concrete click environment whose first click raises a "failed to
click" class error and whose retried click succeeds. -/
def clickEnvRetryOk : ClickEnv :=
  { selector_map := [(2, sampleInput)], is_file_uploader := false,
    initialPages := 1, pagesAfter := 1,
    click1 := .error "Failed to click element: intercepted",
    click2 := .ok none }

/-- Witness for C6: in the concrete retry environment the call returns the
normal click confirmation with exactly one retry observed. -/
theorem click_element_retry_policy_witness :
    (click_element clickEnvRetryOk 2).2 =
      (click_element { clickEnvRetryOk with click1 := .ok none } 2).2
    ∧ (∃ m, (click_element clickEnvRetryOk 2).2 = .ok m)
    ∧ (click_element clickEnvRetryOk 2).1.count ClickEv.clickAttempt = 2
    ∧ (click_element clickEnvRetryOk 2).1.count ClickEv.sleepRetry = 1 :=
  ((click_element_retry_policy clickEnvRetryOk 2 sampleInput
      "Failed to click element: intercepted" (by decide) rfl rfl).1
    (by decide)).1 none rfl

/-- A state with one live session: connection 0 and context 1. -/
def wBoth : World :=
  { browser := some 0, browser_context := some 1,
    liveConnections := [0], liveContexts := [1], nextId := 2 }

/-- Claim C2 counterexample: when releasing the context fails, the exception
propagates at once and the connection release is never attempted, so the two
release steps are not independently guarded against failure. -/
theorem close_browser_ctx_failure_skips_connection :
    (close_browser { contextCloseRaises := true, browserCloseRaises := false } wBoth).2.1 =
      [Ev.contextCloseCall 1]
    ∧ Ev.browserCloseCall 0 ∉
      (close_browser { contextCloseRaises := true, browserCloseRaises := false } wBoth).2.1
    ∧ (close_browser { contextCloseRaises := true, browserCloseRaises := false } wBoth).2.2 =
      .error ()
    ∧ (close_browser { contextCloseRaises := true, browserCloseRaises := false } wBoth).1.browser =
      some 0 := by
  refine ⟨rfl, ?_, rfl, rfl⟩
  decide

/-- Claim C2 (amended): each release step in `close_browser` is guarded only
by a presence check.  A failure releasing the context propagates immediately
and the connection release is not attempted; after a successful context
release the connection release is attempted, and its failure propagates
likewise.  A release failure always propagates rather than being swallowed;
only when both releases succeed are the globals cleared and success
returned. -/
theorem close_browser_release_discipline (env : CloseEnv) (w : World) (b c : Nat)
    (hb : w.browser = some b) (hc : w.browser_context = some c) :
    (env.contextCloseRaises = true →
      close_browser env w = (w, [Ev.contextCloseCall c], .error ()))
    ∧ (env.contextCloseRaises = false → env.browserCloseRaises = true →
      (close_browser env w).2.1 = [Ev.contextCloseCall c, Ev.browserCloseCall b]
      ∧ (close_browser env w).2.2 = .error ())
    ∧ (env.contextCloseRaises = false → env.browserCloseRaises = false →
      (close_browser env w).2.1 = [Ev.contextCloseCall c, Ev.browserCloseCall b]
      ∧ (close_browser env w).2.2 = .ok "Browser closed successfully"
      ∧ (close_browser env w).1.browser = none
      ∧ (close_browser env w).1.browser_context = none) := by
  refine ⟨?_, ?_, ?_⟩
  · intro h1
    simp [close_browser, hb, hc, closeBrowserPart, h1]
  · intro h1 h2
    constructor <;> simp [close_browser, hb, hc, closeBrowserPart, h1, h2]
  · intro h1 h2
    refine ⟨?_, ?_, ?_, ?_⟩ <;> simp [close_browser, hb, hc, closeBrowserPart, h1, h2]

/-- Witness for the amended C2: the both-releases-succeed case at the
concrete one-session state. -/
theorem close_browser_release_discipline_witness :
    (close_browser { contextCloseRaises := false, browserCloseRaises := false } wBoth).2.1 =
      [Ev.contextCloseCall 1, Ev.browserCloseCall 0]
    ∧ (close_browser { contextCloseRaises := false, browserCloseRaises := false } wBoth).2.2 =
      .ok "Browser closed successfully"
    ∧ (close_browser { contextCloseRaises := false, browserCloseRaises := false } wBoth).1.browser =
      none
    ∧ (close_browser { contextCloseRaises := false, browserCloseRaises := false }
        wBoth).1.browser_context = none :=
  (close_browser_release_discipline
    { contextCloseRaises := false, browserCloseRaises := false } wBoth 0 1 rfl rfl).2.2
    rfl rfl

/-- Every early return of the detection body carries one of the two
recognized kinds. -/
theorem detectBody_kinds (env : DetectEnv) (r : String × Option String)
    (h : detectBody env = .ok (some r)) : r.1 = "chrome" ∨ r.1 = "brave" := by
  simp only [detectBody] at h
  repeat' split at h
  all_goals (try simp_all)
  all_goals (subst h; simp)

/-- When the OS-specific probe fails or is inconclusive, or the OS is
unrecognized, the detection body falls through or raises into the outer
handler. -/
theorem detectBody_of_inconclusive (env : DetectEnv)
    (h : probeFailedOrInconclusive env = true) :
    detectBody env = .ok none ∨ detectBody env = .error () := by
  simp only [probeFailedOrInconclusive] at h
  simp only [detectBody]
  repeat' split at h
  all_goals (repeat' split)
  all_goals simp_all

/-- Inconclusive detection reaches the `("chrome", None)` fallback. -/
theorem detect_fallback_of_inconclusive (env : DetectEnv)
    (h : probeFailedOrInconclusive env = true) :
    detect_default_browser env = ("chrome", none) := by
  rcases detectBody_of_inconclusive env h with h2 | h2 <;>
    simp [detect_default_browser, h2]

/-- Claim C3: for every host OS identity and every probe outcome (success,
inconclusive output, or raised failure) `detect_default_browser` returns a
pair whose kind is one of the two recognized values, and returns the
`("chrome", none)` fallback whenever the probe fails or is inconclusive or
the OS is unrecognized; the embedding is a total function, so no exception
escapes. -/
theorem detect_default_browser_total_and_fallback (env : DetectEnv) :
    ((detect_default_browser env).1 = "chrome" ∨ (detect_default_browser env).1 = "brave")
    ∧ (probeFailedOrInconclusive env = true →
        detect_default_browser env = ("chrome", none)) := by
  constructor
  · rcases hd : detectBody env with u | o
    · simp [detect_default_browser, hd]
    · cases o with
      | none => simp [detect_default_browser, hd]
      | some r =>
        have hk := detectBody_kinds env r hd
        simpa [detect_default_browser, hd] using hk
  · exact detect_fallback_of_inconclusive env

/-- A host whose OS is none of the three recognized families. -/
def envUnknownOS : DetectEnv :=
  { system := "FreeBSD", darwinDefaults := .error (), winreg := .importError,
    winHome := "", pathExists := fun _ => false, linuxXdg := .error () }

/-- Witness for C3 at a concrete unrecognized-OS host. -/
theorem detect_default_browser_total_and_fallback_witness :
    probeFailedOrInconclusive envUnknownOS = true
    ∧ detect_default_browser envUnknownOS = ("chrome", none) :=
  ⟨by decide, (detect_default_browser_total_and_fallback envUnknownOS).2 (by decide)⟩

/-- A macOS host whose default browser is Microsoft Edge. -/
def envEdgeMac : DetectEnv :=
  { system := "Darwin",
    darwinDefaults := .ok
      { returncode := 0,
        stdout := "LSHandlerURLScheme = http; LSHandlerRoleAll = \"com.microsoft.EdgeMac\";" },
    winreg := .importError, winHome := "", pathExists := fun _ => false,
    linuxXdg := .error () }

/-- Claim C4 counterexample: on a host whose default browser is Edge (the
recognized well-known Chromium fork), `detect_default_browser` returns the
primary kind `"chrome"` with Edge's path -- not the Chromium-based
alternative kind `"brave"` that the claim, read with the spec's own naming
of the two kinds, requires. -/
theorem detect_edge_not_alternative_kind :
    detect_default_browser envEdgeMac = ("chrome", some edgeMacPath)
    ∧ (detect_default_browser envEdgeMac).1 ≠ alternativeKind
    ∧ (detect_default_browser envEdgeMac).1 = primaryKind := by
  refine ⟨by decide, by decide, by decide⟩

/-- Claim C4 (amended): a recognized Chromium-derivative default browser
other than Brave (Edge on macOS and Windows, Chromium on Linux) is
normalized to the kind `"chrome"` -- the primary kind, which names the
Chromium base -- while keeping the derivative's own executable path;
anything unrecognized falls back to the primary kind with an absent path. -/
theorem detect_chromium_derivative_normalized (env : DetectEnv) :
    (pyLower env.system = "darwin" →
      ∀ r, env.darwinDefaults = .ok r → r.returncode = 0 →
        pyIn "com.brave.browser" (pyLower r.stdout) = false →
        pyIn "com.google.chrome" (pyLower r.stdout) = false →
        pyIn "com.microsoft.edgemac" (pyLower r.stdout) = true →
        detect_default_browser env = ("chrome", some edgeMacPath))
    ∧ (pyLower env.system = "windows" →
      ∀ prog_id, env.winreg = .ok prog_id →
        pyIn "brave" (pyLower prog_id) = false →
        pyIn "chrome" (pyLower prog_id) = false →
        pyIn "edge" (pyLower prog_id) = true →
        detect_default_browser env = ("chrome", some edgeWinPath))
    ∧ (pyLower env.system = "linux" →
      ∀ r, env.linuxXdg = .ok r → r.returncode = 0 →
        pyIn "brave" (pyLower (pyStrip r.stdout)) = false →
        pyIn "chrome" (pyLower (pyStrip r.stdout)) = false →
        pyIn "google-chrome" (pyLower (pyStrip r.stdout)) = false →
        pyIn "chromium" (pyLower (pyStrip r.stdout)) = true →
        detect_default_browser env = ("chrome", some chromiumLinuxPath))
    ∧ (probeFailedOrInconclusive env = true →
        detect_default_browser env = ("chrome", none)) := by
  refine ⟨?_, ?_, ?_, detect_fallback_of_inconclusive env⟩
  · intro hsys r hr hrc hbrave hchrome hedge
    simp [detect_default_browser, detectBody, hsys, hr, hrc, hbrave, hchrome, hedge]
  · intro hsys prog_id hr hbrave hchrome hedge
    simp [detect_default_browser, detectBody, hsys, hr, hbrave, hchrome, hedge]
  · intro hsys r hr hrc hbrave hchrome hgchrome hchromium
    simp [detect_default_browser, detectBody, hsys, hr, hrc, hbrave, hchrome,
      hgchrome, hchromium]

/-- Witness for the amended C4 at the concrete Edge-on-macOS host. -/
theorem detect_chromium_derivative_normalized_witness :
    detect_default_browser envEdgeMac = ("chrome", some edgeMacPath) :=
  (detect_chromium_derivative_normalized envEdgeMac).1 (by decide)
    { returncode := 0,
      stdout := "LSHandlerURLScheme = http; LSHandlerRoleAll = \"com.microsoft.EdgeMac\";" }
    rfl rfl (by decide) (by decide) (by decide)

/-- `buildSession` always succeeds, and its effect on the world is to
install exactly one fresh connection and one fresh context. -/
theorem buildSession_eq (env : InitEnv) (task : String) (w : World) (tr : List Ev)
    (p bt : String) :
    buildSession env task w tr p bt =
      ({ w with
          browser := some w.nextId,
          browser_context := some (w.nextId + 1),
          liveConnections := w.nextId :: w.liveConnections,
          liveContexts := (w.nextId + 1) :: w.liveContexts,
          nextId := w.nextId + 2 },
       tr ++ [Ev.browserNew w.nextId p, Ev.contextNew (w.nextId + 1)],
       .ok (initPrompt env.systemPromptText task bt)) := rfl

/-- Whenever the post-teardown part of `initialize_browser` succeeds, it
adds exactly one fresh connection and one fresh context to the world and
appends their two construction events to the trace. -/
theorem initRest_ok (env : InitEnv) (task : String) (w : World) (tr : List Ev)
    (w2 : World) (tr2 : List Ev) (s : String)
    (h : initRest env task w tr = (w2, tr2, .ok s)) :
    w2 = { w with
            browser := some w.nextId,
            browser_context := some (w.nextId + 1),
            liveConnections := w.nextId :: w.liveConnections,
            liveContexts := (w.nextId + 1) :: w.liveContexts,
            nextId := w.nextId + 2 }
    ∧ ∃ p, tr2 = tr ++ [Ev.browserNew w.nextId p, Ev.contextNew (w.nextId + 1)] := by
  simp only [initRest] at h
  repeat' split at h
  all_goals first
  | (simp only [buildSession_eq, Prod.mk.injEq] at h
     exact ⟨h.1.symm, _, h.2.1.symm⟩)
  | simp at h

/-- Claim C1: two successive `initialize_browser` calls never leak a
session.  If both succeed, the second call tears the first session down
(context close, then connection close) before constructing the new
connection and context, and afterwards exactly one connection and one
context are live. -/
theorem initialize_browser_close_before_open
    (env1 env2 : InitEnv) (task1 task2 : String)
    (h1 : (initialize_browser env1 task1 World.init).2.2.isOk = true)
    (h2 : (initTwice env1 env2 task1 task2).2.2.isOk = true) :
    (initTwice env1 env2 task1 task2).1.liveConnections = [2]
    ∧ (initTwice env1 env2 task1 task2).1.liveContexts = [3]
    ∧ (initTwice env1 env2 task1 task2).1.browser = some 2
    ∧ (initTwice env1 env2 task1 task2).1.browser_context = some 3
    ∧ ∃ p, (initTwice env1 env2 task1 task2).2.1 =
        [Ev.contextCloseCall 1, Ev.browserCloseCall 0, Ev.browserNew 2 p,
         Ev.contextNew 3] := by
  have e1 : initialize_browser env1 task1 World.init =
      initRest env1 task1 World.init [] := rfl
  rcases hr1 : initRest env1 task1 World.init [] with ⟨w1, tr1, r1⟩
  cases r1 with
  | error err =>
    rw [e1, hr1] at h1
    simp [Except.isOk, Except.toBool] at h1
  | ok s1 =>
    obtain ⟨hw1, p1, htr1⟩ := initRest_ok env1 task1 World.init [] w1 tr1 s1 hr1
    have hw1c : w1 =
        { browser := some 0, browser_context := some 1,
          liveConnections := [0], liveContexts := [1], nextId := 2 } := by
      rw [hw1]; rfl
    have e2 : initTwice env1 env2 task1 task2 = initialize_browser env2 task2 w1 := by
      unfold initTwice
      rw [e1, hr1]
    rw [e2, hw1c] at h2 ⊢
    cases hcc : env2.close.contextCloseRaises with
    | true =>
      rw [show initialize_browser env2 task2
          { browser := some 0, browser_context := some 1,
            liveConnections := [0], liveContexts := [1], nextId := 2 } =
          ({ browser := some 0, browser_context := some 1,
             liveConnections := [0], liveContexts := [1], nextId := 2 },
           [Ev.contextCloseCall 1], .error .closeError) by
        simp [initialize_browser, close_browser, hcc]] at h2
      simp [Except.isOk, Except.toBool] at h2
    | false =>
      cases hbc : env2.close.browserCloseRaises with
      | true =>
        rw [show initialize_browser env2 task2
            { browser := some 0, browser_context := some 1,
              liveConnections := [0], liveContexts := [1], nextId := 2 } =
            ({ browser := some 0, browser_context := none,
               liveConnections := [0], liveContexts := [], nextId := 2 },
             [Ev.contextCloseCall 1, Ev.browserCloseCall 0], .error .closeError) by
          simp [initialize_browser, close_browser, closeBrowserPart, hcc, hbc,
            List.erase]] at h2
        simp [Except.isOk, Except.toBool] at h2
      | false =>
        have e3 : initialize_browser env2 task2
            { browser := some 0, browser_context := some 1,
              liveConnections := [0], liveContexts := [1], nextId := 2 } =
            initRest env2 task2
              { browser := none, browser_context := none,
                liveConnections := [], liveContexts := [], nextId := 2 }
              [Ev.contextCloseCall 1, Ev.browserCloseCall 0] := by
          simp [initialize_browser, close_browser, closeBrowserPart, hcc, hbc,
            List.erase]
        rw [e3] at h2 ⊢
        rcases hr2 : initRest env2 task2
            { browser := none, browser_context := none,
              liveConnections := [], liveContexts := [], nextId := 2 }
            [Ev.contextCloseCall 1, Ev.browserCloseCall 0] with ⟨w2, tr2, r2⟩
        cases r2 with
        | error err =>
          rw [hr2] at h2
          simp [Except.isOk, Except.toBool] at h2
        | ok s2 =>
          obtain ⟨hw2, p2, htr2⟩ :=
            initRest_ok env2 task2
              { browser := none, browser_context := none,
                liveConnections := [], liveContexts := [], nextId := 2 }
              [Ev.contextCloseCall 1, Ev.browserCloseCall 0] w2 tr2 s2 hr2
          subst hw2 htr2
          exact ⟨rfl, rfl, rfl, rfl, p2, rfl⟩

/-- A host on which initialization succeeds: Linux, Chrome detected as the
default browser, and teardown calls that never raise. -/
def initEnvLinuxChrome : InitEnv :=
  { detect :=
      { system := "Linux", darwinDefaults := .error (), winreg := .importError,
        winHome := "", pathExists := fun _ => false,
        linuxXdg := .ok { returncode := 0, stdout := "google-chrome.desktop\n" } },
    close := { contextCloseRaises := false, browserCloseRaises := false },
    systemPromptText := "You are a browser automation agent." }

/-- Witness for C1 at the concrete Linux/Chrome host: both calls succeed,
the final state holds exactly the second session, and the teardown events
precede the construction events. -/
theorem initialize_browser_close_before_open_witness :
    (initTwice initEnvLinuxChrome initEnvLinuxChrome "t1" "t2").1.liveConnections = [2]
    ∧ (initTwice initEnvLinuxChrome initEnvLinuxChrome "t1" "t2").1.liveContexts = [3]
    ∧ (initTwice initEnvLinuxChrome initEnvLinuxChrome "t1" "t2").1.browser = some 2
    ∧ (initTwice initEnvLinuxChrome initEnvLinuxChrome "t1" "t2").1.browser_context = some 3
    ∧ ∃ p, (initTwice initEnvLinuxChrome initEnvLinuxChrome "t1" "t2").2.1 =
        [Ev.contextCloseCall 1, Ev.browserCloseCall 0, Ev.browserNew 2 p,
         Ev.contextNew 3] :=
  initialize_browser_close_before_open initEnvLinuxChrome initEnvLinuxChrome "t1" "t2"
    (by decide) (by decide)
